import Mathlib

/-!
Verification of `create_icon.py` (OverPass app icon generator).

The program draws a fixed composition (vertical gradient background, two
pillars, a deck, "OP" title text, eight labelled key badges) onto a
size×size raster canvas and exports PNG files for ten (size, filename)
pairs.

Shallow embedding conventions:
* Colors are triples of `Nat` channel values.
* The canvas is a structure holding its dimensions and a pixel function;
  only the gradient stage (a per-row fill loop) is modelled at pixel
  level, since later drawing primitives (rounded rectangles, text) are
  library calls whose raster output is not part of this program.  Those
  calls are recorded in an explicit trace of drawing operations carrying
  every argument the program computes for them.
* Python `int(...)` truncates toward zero; every quantity it is applied
  to here is nonnegative, where truncation coincides with the rational
  floor, which for the ratios appearing here (k*s/512, k*s/100, a/s)
  equals `Nat` division.
* `ImageFont.truetype` raising (font file absent) is modelled by an
  `Option` result depending on a font environment `String → Bool`;
  the surrounding try/except blocks become total `match`es.
* Text metrics (`draw.textbbox`) come from the font backend, not from
  this program; they are a parameter `Metrics`.
-/

/-- An RGB color: red, green, blue channels. -/
abbrev Color := Nat × Nat × Nat

/-- A fill argument as passed to PIL: RGB channels plus an optional
alpha component (the program passes 4-tuples for the two shadows). -/
abbrev ColorA := Color × Option Nat

-- Color palette (Sapphire Nightfall Whisper), lines 11-17 of the source.
def SAPPHIRE_DARK : Color := (38, 43, 64)
def SAPPHIRE_SLATE : Color := (44, 68, 77)
def SAPPHIRE_NAVY : Color := (6, 69, 127)
def SAPPHIRE_ROYAL : Color := (4, 116, 196)
def SAPPHIRE_DUSTY : Color := (83, 121, 174)
def SAPPHIRE_LIGHT : Color := (168, 196, 236)
def WHITE : Color := (255, 255, 255)

/-- The raster canvas: `Image.new('RGB', (size, size), fill)` produces a
mutable surface; we track its dimensions and pixel contents. -/
structure Image where
  width : Nat
  height : Nat
  pix : Nat → Nat → Color

/-- `Image.new('RGB', (s, s), c)`. -/
def Image.new (s : Nat) (c : Color) : Image :=
  { width := s, height := s, pix := fun _ _ => c }

/-- `draw.line([(0, y), (xmax, y)], fill = c)`: overwrite the horizontal
run of pixels at row `y`, columns `0..xmax` (PIL includes both
endpoints; columns beyond the canvas width are clipped by the canvas). -/
def drawLineRow (img : Image) (y xmax : Nat) (c : Color) : Image :=
  { img with pix := fun px py => if py = y ∧ px ≤ xmax then c else img.pix px py }

/-- One channel of the gradient row color, line 28-30 of the source:
`int(dk * (1 - ratio) + sl * ratio)` with `ratio = y / s`.  The exact
value is `(dk*(s-y) + sl*y) / s`; truncation of this nonnegative
rational is `Nat` division. -/
def gradChannel (dk sl s y : Nat) : Nat := (dk * (s - y) + sl * y) / s

/-- The color the gradient loop computes for row `y` (lines 27-30). -/
def gradColor (s y : Nat) : Color :=
  (gradChannel SAPPHIRE_DARK.1 SAPPHIRE_SLATE.1 s y,
   gradChannel SAPPHIRE_DARK.2.1 SAPPHIRE_SLATE.2.1 s y,
   gradChannel SAPPHIRE_DARK.2.2 SAPPHIRE_SLATE.2.2 s y)

/-- The gradient loop, lines 26-31: `for y in range(size):` draw one
full-width line at row `y` in the interpolated color. -/
def applyGradient (s : Nat) (img : Image) : Image :=
  (List.range s).foldl (fun im y => drawLineRow im y s (gradColor s y)) img

theorem drawLineRow_pix_hit (img : Image) (y xmax : Nat) (c : Color) (px py : Nat)
    (h : py = y ∧ px ≤ xmax) : (drawLineRow img y xmax c).pix px py = c := by
  simp [drawLineRow, h]

theorem drawLineRow_pix_miss (img : Image) (y xmax : Nat) (c : Color) (px py : Nat)
    (h : ¬ (py = y ∧ px ≤ xmax)) : (drawLineRow img y xmax c).pix px py = img.pix px py := by
  simp only [drawLineRow]
  exact if_neg h

theorem foldl_drawRow_pix (s : Nat) (n : Nat) (img : Image) (x y : Nat) (hx : x ≤ s) :
    ((List.range n).foldl (fun im r => drawLineRow im r s (gradColor s r)) img).pix x y
      = if y < n then gradColor s y else img.pix x y := by
  induction n generalizing img with
  | zero => simp
  | succ n ih =>
    rw [List.range_succ, List.foldl_append]
    simp only [List.foldl_cons, List.foldl_nil]
    by_cases hyn : y = n
    · subst hyn
      rw [drawLineRow_pix_hit _ _ _ _ _ _ ⟨rfl, hx⟩]
      simp [Nat.lt_succ_self]
    · have hmiss : ¬ (y = n ∧ x ≤ s) := by tauto
      rw [drawLineRow_pix_miss _ _ _ _ _ _ hmiss, ih img]
      by_cases h1 : y < n
      · simp [h1, Nat.lt_succ_of_lt h1]
      · have h2 : ¬ y < n + 1 := by omega
        simp [h1, h2]

theorem foldl_drawRow_width (s : Nat) (l : List Nat) (img : Image) :
    ((l.foldl (fun im r => drawLineRow im r s (gradColor s r)) img)).width = img.width := by
  induction l generalizing img with
  | nil => rfl
  | cons a t ih => simpa [drawLineRow] using ih _

theorem foldl_drawRow_height (s : Nat) (l : List Nat) (img : Image) :
    ((l.foldl (fun im r => drawLineRow im r s (gradColor s r)) img)).height = img.height := by
  induction l generalizing img with
  | nil => rfl
  | cons a t ih => simpa [drawLineRow] using ih _

theorem applyGradient_pix (s : Nat) (img : Image) (x y : Nat) (hy : y < s) (hx : x ≤ s) :
    (applyGradient s img).pix x y = gradColor s y := by
  rw [applyGradient, foldl_drawRow_pix s s img x y hx]
  simp [hy]

/-- Which font files are present in the environment the program runs in. -/
abbrev FontEnv := String → Bool

/-- A font handle as handed out by the font backend: either a truetype
face loaded from a path at a pixel size, or the backend's built-in
default face (`ImageFont.load_default()`, always available). -/
inductive Font where
  | truetype (path : String) (sz : Nat) : Font
  | dflt : Font
deriving DecidableEq

def arialPathSystem : String := "/System/Library/Fonts/Supplemental/Arial Bold.ttf"

def arialPathLibrary : String := "/Library/Fonts/Arial Bold.ttf"

/-- `ImageFont.truetype(path, sz)`: raises (here: `none`) exactly when
the font file does not resolve in the environment. -/
def loadTruetype (env : FontEnv) (path : String) (sz : Nat) : Option Font :=
  if env path then some (Font.truetype path sz) else none

/-- Title font resolution, lines 79-87: try the system Arial Bold, then
the library copy, then `ImageFont.load_default()` which cannot fail.
The nested try/except is a total match on the two fallible loads. -/
def resolveTitleFont (env : FontEnv) (font_size : Nat) : Font :=
  match loadTruetype env arialPathSystem font_size with
  | some f => f
  | none =>
    match loadTruetype env arialPathLibrary font_size with
    | some f => f
    | none => Font.dflt

/-- Badge-label font resolution, lines 149-153: try the system Arial
Bold at the requested size; on failure fall back to the already-resolved
title font passed in. -/
def resolveLetterFont (env : FontEnv) (sz : Nat) (fallback : Font) : Font :=
  match loadTruetype env arialPathSystem sz with
  | some f => f
  | none => fallback

/-- Text metrics oracle: `draw.textbbox((0, 0), str, font)` returns a
bounding box (x0, y0, x1, y1) determined by the font backend. -/
abbrev Metrics := Font → String → Int × Int × Int × Int

/-- A recorded drawing call with every argument the program computes. -/
inductive DrawOp where
  | roundedRect (x0 y0 x1 y1 : Int) (radius : Nat) (fill : ColorA)
      (outline : Option Color) (width : Nat) : DrawOp
  | text (x y : Int) (str : String) (fill : ColorA) (font : Font) : DrawOp

/-- `int(k * scale)` with `scale = s / 512` (line 34): the exact value
`k*s/512` truncated, i.e. `Nat` division. -/
def scaled (k s : Nat) : Nat := k * s / 512

/-- `int(s * 0.NN)` for the percentage positions: the exact value
`num*s/100` truncated, i.e. `Nat` division. -/
def pct (num s : Nat) : Nat := num * s / 100

/-- Badge outline color, line 144: each channel increased by 40 and
clamped at 255. -/
def outlineColor (c : Color) : Color :=
  (min 255 (c.1 + 40), min 255 (c.2.1 + 40), min 255 (c.2.2 + 40))

/-- `draw_rounded_key`, lines 127-159: shadow rounded-rectangle offset
by `int(2*scale)`, the badge rounded-rectangle with brightened outline
of width `int(2*scale)`, and the centered label.  The Python function
receives `scale`; it uses it only through `int(2*scale)`, so we pass the
icon size `s` and compute `scaled 2 s`.  The shadow rectangle is drawn
with PIL's default outline (none) and default width 1. -/
def draw_rounded_key (m : Metrics) (env : FontEnv) (x y : Int) (sz radius : Nat)
    (letter : String) (color : Color) (font : Font) (s : Nat) : List DrawOp :=
  let shadow_offset : Int := (scaled 2 s : Nat)
  let half : Int := (sz / 2 : Nat)
  let shadow := DrawOp.roundedRect (x - half + shadow_offset) (y - half + shadow_offset)
      (x + half + shadow_offset) (y + half + shadow_offset) radius ((0, 0, 0), some 100) none 1
  let keyBg := DrawOp.roundedRect (x - half) (y - half) (x + half) (y + half) radius
      (color, none) (some (outlineColor color)) (scaled 2 s)
  let letter_font := resolveLetterFont env (sz / 2) font
  let bbox := m letter_font letter
  let letter_width := bbox.2.2.1 - bbox.1
  let letter_height := bbox.2.2.2 - bbox.2.1
  let letterOp := DrawOp.text (x - letter_width.fdiv 2) (y - letter_height.fdiv 2) letter
      (WHITE, none) letter_font
  [shadow, keyBg, letterOp]

/-- The four top-left keys with their fill colors, lines 106-107. -/
def keys_top : List (String × Color) :=
  [("W", SAPPHIRE_ROYAL), ("A", SAPPHIRE_DUSTY), ("S", SAPPHIRE_ROYAL), ("D", SAPPHIRE_DUSTY)]

/-- The four bottom-right keys with their fill colors, lines 116-117. -/
def keys_bottom : List (String × Color) :=
  [("↑", SAPPHIRE_DUSTY), ("↓", SAPPHIRE_ROYAL), ("←", SAPPHIRE_DUSTY), ("→", SAPPHIRE_ROYAL)]

/-- Pillar, deck and title-text drawing calls of `create_icon`,
lines 36-99, in program order. -/
def baseOps (m : Metrics) (env : FontEnv) (s : Nat) : List DrawOp :=
  let pillar_width := scaled 16 s
  let pillar_height := scaled 120 s
  let pillar_x1 := pct 30 s
  let pillar_x2 := pct 70 s
  let pillar_y := pct 70 s
  let leftPillar := DrawOp.roundedRect ((pillar_x1 : Int) - (pillar_width / 2 : Nat))
      ((pillar_y : Int) - (pillar_height : Nat)) ((pillar_x1 : Int) + (pillar_width / 2 : Nat))
      (pillar_y : Int) (scaled 4 s) (SAPPHIRE_NAVY, none) (some SAPPHIRE_ROYAL) (scaled 2 s)
  let rightPillar := DrawOp.roundedRect ((pillar_x2 : Int) - (pillar_width / 2 : Nat))
      ((pillar_y : Int) - (pillar_height : Nat)) ((pillar_x2 : Int) + (pillar_width / 2 : Nat))
      (pillar_y : Int) (scaled 4 s) (SAPPHIRE_NAVY, none) (some SAPPHIRE_ROYAL) (scaled 2 s)
  let deck_width := scaled 280 s
  let deck_height := scaled 24 s
  let deck_x : Int := ((s : Int) - (deck_width : Nat)).fdiv 2
  let deck_y : Int := (pillar_y : Int) - (pillar_height : Nat)
  let deck := DrawOp.roundedRect deck_x (deck_y - (deck_height / 2 : Nat))
      (deck_x + (deck_width : Nat)) (deck_y + (deck_height / 2 : Nat)) (scaled 8 s)
      (SAPPHIRE_NAVY, none) (some SAPPHIRE_ROYAL) (scaled 2 s)
  let font := resolveTitleFont env (scaled 80 s)
  let bbox := m font "OP"
  let text_width := bbox.2.2.1 - bbox.1
  let text_height := bbox.2.2.2 - bbox.2.1
  let text_x := ((s : Int) - text_width).fdiv 2
  let text_y := deck_y - text_height.fdiv 2
  let shadowText := DrawOp.text (text_x + (scaled 2 s : Nat)) (text_y + (scaled 2 s : Nat)) "OP"
      ((0, 0, 0), some 128) font
  let mainText := DrawOp.text text_x text_y "OP" (SAPPHIRE_LIGHT, none) font
  [leftPillar, rightPillar, deck, shadowText, mainText]

/-- The composed icon: the canvas (with the gradient rows realised at
pixel level) together with the trace of subsequent drawing calls. -/
structure Render where
  img : Image
  ops : List DrawOp

/-- `create_icon(size)`, lines 19-125: gradient background, pillars,
deck, title text, then the two groups of four key badges.  Badge `i` of
a group sits at `start_x + i * int(40*scale)` (all nonnegative integer
arithmetic), group starts at (15%, 25%) resp. (55%, 75%) of the size. -/
def create_icon (env : FontEnv) (m : Metrics) (s : Nat) : Render :=
  let img := applyGradient s (Image.new s SAPPHIRE_DARK)
  let font := resolveTitleFont env (scaled 80 s)
  let key_size := scaled 28 s
  let key_radius := scaled 6 s
  let topOps := (keys_top.enum).flatMap fun p =>
    draw_rounded_key m env ((pct 15 s + p.1 * scaled 40 s : Nat) : Int) ((pct 25 s : Nat) : Int)
      key_size key_radius p.2.1 p.2.2 font s
  let bottomOps := (keys_bottom.enum).flatMap fun p =>
    draw_rounded_key m env ((pct 55 s + p.1 * scaled 40 s : Nat) : Int) ((pct 75 s : Nat) : Int)
      key_size key_radius p.2.1 p.2.2 font s
  { img := img, ops := baseOps m env s ++ topOps ++ bottomOps }

/-- Output directory, line 163. -/
def icon_dir : String := "OverPass/Assets.xcassets/AppIcon.appiconset"

/-- The hardcoded (size, filename) table, lines 167-178. -/
def sizes : List (Nat × String) :=
  [(16, "icon_16x16.png"),
   (32, "icon_16x16@2x.png"),
   (32, "icon_32x32.png"),
   (64, "icon_32x32@2x.png"),
   (128, "icon_128x128.png"),
   (256, "icon_128x128@2x.png"),
   (256, "icon_256x256.png"),
   (512, "icon_256x256@2x.png"),
   (512, "icon_512x512.png"),
   (1024, "icon_512x512@2x.png")]

/-- The batch export loop of `main`, lines 181-185: for each pair in
order, compose the icon at that size and write it under the filename.
The result models the ordered list of (filename, content) writes. -/
def export_all (env : FontEnv) (m : Metrics) : List (String × Render) :=
  sizes.map fun p => (p.2, create_icon env m p.1)

/-- A font environment in which no named font file resolves. -/
def noFonts : FontEnv := fun _ => false

/-- A concrete metrics oracle for evaluating the program on instances. -/
def zeroMetrics : Metrics := fun _ _ => (0, 0, 0, 0)

theorem gradChannel_zero (dk sl s : Nat) (hs : 0 < s) : gradChannel dk sl s 0 = dk := by
  unfold gradChannel
  simp only [Nat.sub_zero, Nat.mul_zero, Nat.add_zero]
  exact Nat.mul_div_cancel dk hs

theorem gradChannel_le (dk sl s y : Nat) (hd : dk ≤ sl) (hy : y ≤ s) (hs : 0 < s) :
    gradChannel dk sl s y ≤ sl := by
  unfold gradChannel
  have hnum : dk * (s - y) + sl * y ≤ sl * s := by
    calc dk * (s - y) + sl * y ≤ sl * (s - y) + sl * y :=
          Nat.add_le_add_right (Nat.mul_le_mul hd le_rfl) _
    _ = sl * ((s - y) + y) := by rw [Nat.mul_add]
    _ = sl * s := by rw [Nat.sub_add_cancel hy]
  calc (dk * (s - y) + sl * y) / s ≤ (sl * s) / s := Nat.div_le_div_right hnum
  _ = sl := Nat.mul_div_cancel sl hs

theorem gradChannel_mono (dk sl s y1 y2 : Nat) (hd : dk ≤ sl) (h12 : y1 ≤ y2) (h2 : y2 ≤ s) :
    gradChannel dk sl s y1 ≤ gradChannel dk sl s y2 := by
  unfold gradChannel
  apply Nat.div_le_div_right
  obtain ⟨d, rfl⟩ : ∃ d, sl = dk + d := ⟨sl - dk, by omega⟩
  obtain ⟨b, rfl⟩ : ∃ b, y2 = y1 + b := ⟨y2 - y1, by omega⟩
  obtain ⟨c, rfl⟩ : ∃ c, s = y1 + b + c := ⟨s - (y1 + b), by omega⟩
  have e1 : y1 + b + c - y1 = b + c := by omega
  have e2 : y1 + b + c - (y1 + b) = c := by omega
  rw [e1, e2]
  nlinarith [Nat.zero_le (d * b)]

theorem gradChannel_last_ge (dk sl s : Nat) (hd : dk ≤ sl) (hds : sl - dk ≤ s) (hs : 0 < s) :
    sl - 1 ≤ gradChannel dk sl s (s - 1) := by
  unfold gradChannel
  rw [Nat.le_div_iff_mul_le hs]
  have h1 : s - (s - 1) = 1 := by omega
  rw [h1]
  have hnum : dk * 1 + sl * (s - 1) = sl * s - (sl - dk) := by
    obtain ⟨a, rfl⟩ : ∃ a, s = a + 1 := ⟨s - 1, by omega⟩
    obtain ⟨d, rfl⟩ : ∃ d, sl = dk + d := ⟨sl - dk, by omega⟩
    have h2 : dk + d - dk = d := by omega
    have h3 : a + 1 - 1 = a := by omega
    rw [h2, h3]
    have hle : d ≤ (dk + d) * (a + 1) := by
      calc d ≤ (dk + d) * 1 := by omega
      _ ≤ (dk + d) * (a + 1) := Nat.mul_le_mul le_rfl (by omega)
    symm
    rw [Nat.sub_eq_iff_eq_add hle]
    ring
  rw [hnum]
  calc (sl - 1) * s = sl * s - 1 * s := Nat.sub_mul sl 1 s
  _ = sl * s - s := by rw [Nat.one_mul]
  _ ≤ sl * s - (sl - dk) := Nat.sub_le_sub_left hds _

/-- C1: for every positive integer size `s`, `create_icon` returns a
raster image of exactly `s × s` pixels. -/
theorem c1_compose_dimensions (env : FontEnv) (m : Metrics) (s : Nat) (hs : 0 < s) :
    (create_icon env m s).img.width = s ∧ (create_icon env m s).img.height = s := by
  have himg : (create_icon env m s).img = applyGradient s (Image.new s SAPPHIRE_DARK) := rfl
  rw [himg, applyGradient]
  exact ⟨foldl_drawRow_width s _ _, foldl_drawRow_height s _ _⟩

theorem c1_compose_dimensions_witness :
    0 < 16 ∧ ((create_icon noFonts zeroMetrics 16).img.width = 16 ∧
      (create_icon noFonts zeroMetrics 16).img.height = 16) :=
  ⟨by decide, c1_compose_dimensions noFonts zeroMetrics 16 (by decide)⟩

/-- Modelled from the spec's words, for comparison with `gradChannel`:
the claimed per-channel value `round(dk * (1 - ratio) + sl * ratio)`
with `ratio = y / s`.  For `y ≤ s` the exact argument is the
nonnegative rational `(dk*(s-y) + sl*y) / s`, and
`round(a/b) = ⌊(a + b/2) / b⌋ = (2*a + b) / (2*b)` in `Nat` division
(rounding halves up; the counterexample below is insensitive to the
tie-breaking convention, since truncation loses a full half there). -/
def specGradChannel (dk sl s y : Nat) : Nat :=
  (2 * (dk * (s - y) + sl * y) + s) / (2 * s)

/-- Modelled from the spec's words: the claimed gradient row color. -/
def specGradColor (s y : Nat) : Color :=
  (specGradChannel SAPPHIRE_DARK.1 SAPPHIRE_SLATE.1 s y,
   specGradChannel SAPPHIRE_DARK.2.1 SAPPHIRE_SLATE.2.1 s y,
   specGradChannel SAPPHIRE_DARK.2.2 SAPPHIRE_SLATE.2.2 s y)

/-- C2 fails as stated: at size 4, row 1, the program's red channel is
`int(38 * 0.75 + 44 * 0.25) = int(39.5) = 39`, while the claimed
`round(39.5) = 40`. -/
theorem c2_gradient_counterexample :
    (create_icon noFonts zeroMetrics 4).img.pix 0 1 ≠ specGradColor 4 1 := by
  have h1 : (create_icon noFonts zeroMetrics 4).img.pix 0 1 = gradColor 4 1 :=
    applyGradient_pix 4 (Image.new 4 SAPPHIRE_DARK) 0 1 (by decide) (by decide)
  rw [h1]
  decide

/-- C2 (amended): for every size `s` and row `y < s`, the gradient fills
row `y` with the color whose channels are the TRUNCATION (Python `int`,
i.e. floor for these nonnegative values) of
`dark * (1 - y/s) + slate * (y/s)`, with dark = (38, 43, 64) and
slate = (44, 68, 77) — not the rounding the claim states. -/
theorem c2_gradient_row_fill (env : FontEnv) (m : Metrics) (s y x : Nat)
    (hy : y < s) (hx : x ≤ s) :
    (create_icon env m s).img.pix x y =
      ((38 * (s - y) + 44 * y) / s, (43 * (s - y) + 68 * y) / s, (64 * (s - y) + 77 * y) / s) :=
  applyGradient_pix s (Image.new s SAPPHIRE_DARK) x y hy hx

theorem c2_gradient_row_fill_witness :
    (1 < 4 ∧ 0 ≤ 4) ∧ (create_icon noFonts zeroMetrics 4).img.pix 0 1 =
      ((38 * (4 - 1) + 44 * 1) / 4, (43 * (4 - 1) + 68 * 1) / 4, (64 * (4 - 1) + 77 * 1) / 4) :=
  ⟨by decide, c2_gradient_row_fill noFonts zeroMetrics 4 1 0 (by decide) (by decide)⟩

/-- C3 fails as stated: at size 16 (one of the exported sizes), the last
row's green channel is `int(43 * (1/16) + 68 * (15/16)) = 66`, which is
2 below the slate green channel 68 — outside the claimed ±1. -/
theorem c3_gradient_counterexample :
    ¬ (SAPPHIRE_SLATE.2.1 ≤ ((create_icon noFonts zeroMetrics 16).img.pix 0 15).2.1 + 1) := by
  have h1 : (create_icon noFonts zeroMetrics 16).img.pix 0 15 = gradColor 16 15 :=
    applyGradient_pix 16 (Image.new 16 SAPPHIRE_DARK) 0 15 (by decide) (by decide)
  rw [h1]
  decide

/-- C3 (amended): for every positive size the gradient color at row 0
equals the dark base color (38, 43, 64) and each channel is
monotonically non-decreasing in the row index; the color at the last
row is within ±1 per channel of slate (44, 68, 77) provided `25 ≤ s`
(for smaller sizes — including the exported size 16 — a channel can end
2 or more below slate, see the counterexample). -/
theorem c3_gradient_endpoints_monotone (env : FontEnv) (m : Metrics) (s x y1 y2 : Nat)
    (hs : 0 < s) (hx : x ≤ s) (h12 : y1 ≤ y2) (h2 : y2 < s) :
    (create_icon env m s).img.pix x 0 = SAPPHIRE_DARK ∧
    (((create_icon env m s).img.pix x y1).1 ≤ ((create_icon env m s).img.pix x y2).1 ∧
     ((create_icon env m s).img.pix x y1).2.1 ≤ ((create_icon env m s).img.pix x y2).2.1 ∧
     ((create_icon env m s).img.pix x y1).2.2 ≤ ((create_icon env m s).img.pix x y2).2.2) ∧
    (25 ≤ s →
      (SAPPHIRE_SLATE.1 ≤ ((create_icon env m s).img.pix x (s - 1)).1 + 1 ∧
        ((create_icon env m s).img.pix x (s - 1)).1 ≤ SAPPHIRE_SLATE.1) ∧
      (SAPPHIRE_SLATE.2.1 ≤ ((create_icon env m s).img.pix x (s - 1)).2.1 + 1 ∧
        ((create_icon env m s).img.pix x (s - 1)).2.1 ≤ SAPPHIRE_SLATE.2.1) ∧
      (SAPPHIRE_SLATE.2.2 ≤ ((create_icon env m s).img.pix x (s - 1)).2.2 + 1 ∧
        ((create_icon env m s).img.pix x (s - 1)).2.2 ≤ SAPPHIRE_SLATE.2.2)) := by
  have hpix : ∀ y, y < s → (create_icon env m s).img.pix x y = gradColor s y :=
    fun y hy => applyGradient_pix s (Image.new s SAPPHIRE_DARK) x y hy hx
  refine ⟨?_, ?_, ?_⟩
  · rw [hpix 0 hs, gradColor, gradChannel_zero _ _ _ hs, gradChannel_zero _ _ _ hs,
      gradChannel_zero _ _ _ hs]
  · rw [hpix y1 (lt_of_le_of_lt h12 h2), hpix y2 h2]
    exact ⟨gradChannel_mono _ _ _ _ _ (by decide) h12 (le_of_lt h2),
      gradChannel_mono _ _ _ _ _ (by decide) h12 (le_of_lt h2),
      gradChannel_mono _ _ _ _ _ (by decide) h12 (le_of_lt h2)⟩
  · intro h25
    have hlt : s - 1 < s := by omega
    rw [hpix (s - 1) hlt]
    refine ⟨⟨?_, ?_⟩, ⟨?_, ?_⟩, ⟨?_, ?_⟩⟩
    · have h := gradChannel_last_ge 38 44 s (by decide) (by omega) hs
      show 44 ≤ gradChannel 38 44 s (s - 1) + 1
      omega
    · exact gradChannel_le 38 44 s (s - 1) (by decide) (by omega) hs
    · have h := gradChannel_last_ge 43 68 s (by decide) (by omega) hs
      show 68 ≤ gradChannel 43 68 s (s - 1) + 1
      omega
    · exact gradChannel_le 43 68 s (s - 1) (by decide) (by omega) hs
    · have h := gradChannel_last_ge 64 77 s (by decide) (by omega) hs
      show 77 ≤ gradChannel 64 77 s (s - 1) + 1
      omega
    · exact gradChannel_le 64 77 s (s - 1) (by decide) (by omega) hs

theorem c3_gradient_endpoints_monotone_witness :
    (0 < 32 ∧ 0 ≤ 32 ∧ 3 ≤ 7 ∧ 7 < 32) ∧
    ((create_icon noFonts zeroMetrics 32).img.pix 0 0 = SAPPHIRE_DARK ∧
    (((create_icon noFonts zeroMetrics 32).img.pix 0 3).1 ≤
        ((create_icon noFonts zeroMetrics 32).img.pix 0 7).1 ∧
     ((create_icon noFonts zeroMetrics 32).img.pix 0 3).2.1 ≤
        ((create_icon noFonts zeroMetrics 32).img.pix 0 7).2.1 ∧
     ((create_icon noFonts zeroMetrics 32).img.pix 0 3).2.2 ≤
        ((create_icon noFonts zeroMetrics 32).img.pix 0 7).2.2) ∧
    (25 ≤ 32 →
      (SAPPHIRE_SLATE.1 ≤ ((create_icon noFonts zeroMetrics 32).img.pix 0 (32 - 1)).1 + 1 ∧
        ((create_icon noFonts zeroMetrics 32).img.pix 0 (32 - 1)).1 ≤ SAPPHIRE_SLATE.1) ∧
      (SAPPHIRE_SLATE.2.1 ≤ ((create_icon noFonts zeroMetrics 32).img.pix 0 (32 - 1)).2.1 + 1 ∧
        ((create_icon noFonts zeroMetrics 32).img.pix 0 (32 - 1)).2.1 ≤ SAPPHIRE_SLATE.2.1) ∧
      (SAPPHIRE_SLATE.2.2 ≤ ((create_icon noFonts zeroMetrics 32).img.pix 0 (32 - 1)).2.2 + 1 ∧
        ((create_icon noFonts zeroMetrics 32).img.pix 0 (32 - 1)).2.2 ≤ SAPPHIRE_SLATE.2.2))) :=
  ⟨by decide, c3_gradient_endpoints_monotone noFonts zeroMetrics 32 0 3 7
    (by decide) (by decide) (by decide) (by decide)⟩

/-- C4: the batch exporter iterates exactly the ten (size, filename)
pairs, in the stated order, composing one icon per pair and writing it
under that filename, in list order. -/
theorem c4_export_list (env : FontEnv) (m : Metrics) :
    export_all env m =
      [("icon_16x16.png", create_icon env m 16),
       ("icon_16x16@2x.png", create_icon env m 32),
       ("icon_32x32.png", create_icon env m 32),
       ("icon_32x32@2x.png", create_icon env m 64),
       ("icon_128x128.png", create_icon env m 128),
       ("icon_128x128@2x.png", create_icon env m 256),
       ("icon_256x256.png", create_icon env m 256),
       ("icon_256x256@2x.png", create_icon env m 512),
       ("icon_512x512.png", create_icon env m 512),
       ("icon_512x512@2x.png", create_icon env m 1024)] := rfl

/-- C5: for every badge fill color with channels in [0, 255], the
computed outline color (each channel + 40, clamped at 255) has every
channel ≤ 255. -/
theorem c5_outline_clamp (r g b : Nat) (hr : r ≤ 255) (hg : g ≤ 255) (hb : b ≤ 255) :
    (outlineColor (r, g, b)).1 ≤ 255 ∧ (outlineColor (r, g, b)).2.1 ≤ 255 ∧
      (outlineColor (r, g, b)).2.2 ≤ 255 :=
  ⟨Nat.min_le_left _ _, Nat.min_le_left _ _, Nat.min_le_left _ _⟩

theorem c5_outline_clamp_witness :
    (250 ≤ 255 ∧ 255 ≤ 255 ∧ 216 ≤ 255) ∧
    ((outlineColor (250, 255, 216)).1 ≤ 255 ∧ (outlineColor (250, 255, 216)).2.1 ≤ 255 ∧
      (outlineColor (250, 255, 216)).2.2 ≤ 255) :=
  ⟨by decide, c5_outline_clamp 250 255 216 (by decide) (by decide) (by decide)⟩

/-- C7: composing never fails due to font resolution: when no named font
file resolves, the title chain ends at the backend default font, the
badge-label chain ends at the title font passed in, and `create_icon`
still returns a valid size×size image. -/
theorem c7_font_fallback (env : FontEnv) (m : Metrics) (s fs ls : Nat) (fb : Font)
    (h : ∀ p, env p = false) :
    resolveTitleFont env fs = Font.dflt ∧
    resolveLetterFont env ls fb = fb ∧
    (create_icon env m s).img.width = s ∧ (create_icon env m s).img.height = s := by
  have ht : ∀ path sz, loadTruetype env path sz = none := fun path sz => by
    simp [loadTruetype, h path]
  have himg : (create_icon env m s).img = applyGradient s (Image.new s SAPPHIRE_DARK) := rfl
  refine ⟨?_, ?_, ?_, ?_⟩
  · simp [resolveTitleFont, ht]
  · simp [resolveLetterFont, ht]
  · rw [himg, applyGradient]
    exact foldl_drawRow_width s _ _
  · rw [himg, applyGradient]
    exact foldl_drawRow_height s _ _

theorem c7_font_fallback_witness :
    (∀ p, noFonts p = false) ∧
    (resolveTitleFont noFonts 80 = Font.dflt ∧
     resolveLetterFont noFonts 14 Font.dflt = Font.dflt ∧
     (create_icon noFonts zeroMetrics 16).img.width = 16 ∧
     (create_icon noFonts zeroMetrics 16).img.height = 16) :=
  ⟨fun _ => rfl, c7_font_fallback noFonts zeroMetrics 16 80 14 Font.dflt (fun _ => rfl)⟩

/-- C8: rendering is deterministic: two runs under the same font
environment and the same text-metrics backend produce equal ordered
write lists (same filenames, same image content, so a second run
overwrites the first with identical bytes), and two compositions at the
same size are pixel-identical. -/
theorem c8_deterministic (env1 env2 : FontEnv) (m1 m2 : Metrics)
    (henv : ∀ p, env1 p = env2 p) (hm : ∀ f t, m1 f t = m2 f t) :
    export_all env1 m1 = export_all env2 m2 ∧
    (∀ s x y, (create_icon env1 m1 s).img.pix x y = (create_icon env2 m2 s).img.pix x y) := by
  have he : env1 = env2 := funext henv
  have hme : m1 = m2 := funext fun f => funext fun t => hm f t
  subst he
  subst hme
  exact ⟨rfl, fun _ _ _ => rfl⟩

theorem c8_deterministic_witness :
    ((∀ p, noFonts p = noFonts p) ∧ (∀ f t, zeroMetrics f t = zeroMetrics f t)) ∧
    (export_all noFonts zeroMetrics = export_all noFonts zeroMetrics ∧
     (∀ s x y, (create_icon noFonts zeroMetrics s).img.pix x y =
        (create_icon noFonts zeroMetrics s).img.pix x y)) :=
  ⟨⟨fun _ => rfl, fun _ _ => rfl⟩,
    c8_deterministic noFonts noFonts zeroMetrics zeroMetrics (fun _ => rfl) (fun _ _ => rfl)⟩

/-- C10: the export list repeats the sizes 32, 256 and 512, so the
paired filenames receive identical content: entry 1 (icon_16x16@2x.png)
and entry 2 (icon_32x32.png) both hold the size-32 composition, entries
5 and 6 the size-256 one, entries 7 and 8 the size-512 one. -/
theorem c10_duplicate_sizes (env : FontEnv) (m : Metrics) :
    (export_all env m)[1]? = some ("icon_16x16@2x.png", create_icon env m 32) ∧
    (export_all env m)[2]? = some ("icon_32x32.png", create_icon env m 32) ∧
    (export_all env m)[5]? = some ("icon_128x128@2x.png", create_icon env m 256) ∧
    (export_all env m)[6]? = some ("icon_256x256.png", create_icon env m 256) ∧
    (export_all env m)[7]? = some ("icon_256x256@2x.png", create_icon env m 512) ∧
    (export_all env m)[8]? = some ("icon_512x512.png", create_icon env m 512) :=
  ⟨rfl, rfl, rfl, rfl, rfl, rfl⟩

/-- C6: after the fixed base shapes (pillars, deck, title text), the
composition draws exactly eight key badges: the top-left group "W", "A",
"S", "D" with fills royal, dusty, royal, dusty starting at
(15% size, 25% size), each `int(40·scale)` further right; then the
bottom-right group with the up, down, left, right arrow glyphs and fills
dusty, royal, dusty, royal starting at (55% size, 75% size), same
spacing and sizing (side `int(28·scale)`, radius `int(6·scale)`). -/
theorem c6_badges (env : FontEnv) (m : Metrics) (s : Nat) :
    (create_icon env m s).ops =
      baseOps m env s
      ++ ((draw_rounded_key m env ((pct 15 s + 0 * scaled 40 s : Nat) : Int)
            ((pct 25 s : Nat) : Int) (scaled 28 s) (scaled 6 s) "W" SAPPHIRE_ROYAL
            (resolveTitleFont env (scaled 80 s)) s
        ++ draw_rounded_key m env ((pct 15 s + 1 * scaled 40 s : Nat) : Int)
            ((pct 25 s : Nat) : Int) (scaled 28 s) (scaled 6 s) "A" SAPPHIRE_DUSTY
            (resolveTitleFont env (scaled 80 s)) s
        ++ draw_rounded_key m env ((pct 15 s + 2 * scaled 40 s : Nat) : Int)
            ((pct 25 s : Nat) : Int) (scaled 28 s) (scaled 6 s) "S" SAPPHIRE_ROYAL
            (resolveTitleFont env (scaled 80 s)) s
        ++ draw_rounded_key m env ((pct 15 s + 3 * scaled 40 s : Nat) : Int)
            ((pct 25 s : Nat) : Int) (scaled 28 s) (scaled 6 s) "D" SAPPHIRE_DUSTY
            (resolveTitleFont env (scaled 80 s)) s)
      ++ (draw_rounded_key m env ((pct 55 s + 0 * scaled 40 s : Nat) : Int)
            ((pct 75 s : Nat) : Int) (scaled 28 s) (scaled 6 s) "↑" SAPPHIRE_DUSTY
            (resolveTitleFont env (scaled 80 s)) s
        ++ draw_rounded_key m env ((pct 55 s + 1 * scaled 40 s : Nat) : Int)
            ((pct 75 s : Nat) : Int) (scaled 28 s) (scaled 6 s) "↓" SAPPHIRE_ROYAL
            (resolveTitleFont env (scaled 80 s)) s
        ++ draw_rounded_key m env ((pct 55 s + 2 * scaled 40 s : Nat) : Int)
            ((pct 75 s : Nat) : Int) (scaled 28 s) (scaled 6 s) "←" SAPPHIRE_DUSTY
            (resolveTitleFont env (scaled 80 s)) s
        ++ draw_rounded_key m env ((pct 55 s + 3 * scaled 40 s : Nat) : Int)
            ((pct 75 s : Nat) : Int) (scaled 28 s) (scaled 6 s) "→" SAPPHIRE_ROYAL
            (resolveTitleFont env (scaled 80 s)) s)) := by
  simp [create_icon, keys_top, keys_bottom, List.enum, List.enumFrom, List.append_assoc]

/-- The stroke width of a drawing call that has an outline color;
`none` for outline-less rectangles and text. -/
def outlinedWidth : DrawOp → Option Nat
  | DrawOp.roundedRect _ _ _ _ _ _ (some _) w => some w
  | _ => none

theorem draw_rounded_key_outlinedWidth (m : Metrics) (env : FontEnv) (x y : Int)
    (sz radius : Nat) (letter : String) (color : Color) (font : Font) (s : Nat) :
    ∀ op ∈ draw_rounded_key m env x y sz radius letter color font s,
      ∀ w, outlinedWidth op = some w → w = scaled 2 s := by
  intro op hop w hw
  simp only [draw_rounded_key, List.mem_cons, List.mem_singleton, List.not_mem_nil,
    or_false] at hop
  rcases hop with h | h | h <;> subst h <;> simp [outlinedWidth] at hw
  exact hw.symm

theorem baseOps_outlinedWidth (m : Metrics) (env : FontEnv) (s : Nat) :
    ∀ op ∈ baseOps m env s, ∀ w, outlinedWidth op = some w → w = scaled 2 s := by
  intro op hop w hw
  simp only [baseOps, List.mem_cons, List.mem_singleton, List.not_mem_nil, or_false] at hop
  rcases hop with h | h | h | h | h <;> subst h <;> simp [outlinedWidth] at hw <;>
    exact hw.symm

/-- C9 (implicit): for every size below 256 — in particular the exported
sizes 16, 32, 64 and 128 — the computed stroke width `int(2·scale)` with
`scale = s/512` is 0, so every outlined rounded rectangle the program
draws (pillars, deck, badge backgrounds) is drawn with zero outline
width. -/
theorem c9_zero_stroke_width (env : FontEnv) (m : Metrics) (s : Nat) (hs : s < 256) :
    scaled 2 s = 0 ∧
    ∀ op ∈ (create_icon env m s).ops, ∀ w, outlinedWidth op = some w → w = 0 := by
  have hzero : scaled 2 s = 0 := by
    unfold scaled
    omega
  refine ⟨hzero, ?_⟩
  intro op hop w hw
  have hops : (create_icon env m s).ops =
      baseOps m env s
      ++ ((keys_top.enum).flatMap fun p =>
        draw_rounded_key m env ((pct 15 s + p.1 * scaled 40 s : Nat) : Int)
          ((pct 25 s : Nat) : Int) (scaled 28 s) (scaled 6 s) p.2.1 p.2.2
          (resolveTitleFont env (scaled 80 s)) s)
      ++ ((keys_bottom.enum).flatMap fun p =>
        draw_rounded_key m env ((pct 55 s + p.1 * scaled 40 s : Nat) : Int)
          ((pct 75 s : Nat) : Int) (scaled 28 s) (scaled 6 s) p.2.1 p.2.2
          (resolveTitleFont env (scaled 80 s)) s) := rfl
  rw [hops] at hop
  rcases List.mem_append.1 hop with h1 | hbot
  · rcases List.mem_append.1 h1 with hbase | htop
    · exact (baseOps_outlinedWidth m env s op hbase w hw).trans hzero
    · rcases List.mem_flatMap.1 htop with ⟨p, _, hop2⟩
      exact (draw_rounded_key_outlinedWidth m env _ _ _ _ _ _ _ _ op hop2 w hw).trans hzero
  · rcases List.mem_flatMap.1 hbot with ⟨p, _, hop2⟩
    exact (draw_rounded_key_outlinedWidth m env _ _ _ _ _ _ _ _ op hop2 w hw).trans hzero

theorem c9_zero_stroke_width_witness :
    16 < 256 ∧
    (scaled 2 16 = 0 ∧
     ∀ op ∈ (create_icon noFonts zeroMetrics 16).ops, ∀ w, outlinedWidth op = some w → w = 0) :=
  ⟨by decide, c9_zero_stroke_width noFonts zeroMetrics 16 (by decide)⟩
